import Mathlib

/-!
Shallow embedding of `src/ubus/protocol.py` (python-ubus): the JSON-RPC
envelope construction, the response decoding of `Ubus._do_request`, the
`UbusError` status enumeration, `Method.__call__` argument validation,
`Ubus.login`, the request-id counter, and the namespace/method caches.

JSON values are modelled by `JVal`; Python runtime failures are modelled
explicitly: `UbusException` raise sites become structured `PyError`
constructors, and the uncaught `ValueError`/`TypeError` that CPython
raises on bad enum lookups, `in` over non-containers, and string-indexing
a list are modelled as their own `PyError` constructors.
-/

namespace UbusProto

/-- A parsed JSON value, as handed to the decoder by `res.json()`.
Numbers are modelled as integers (all values the protocol inspects are
status codes). -/
inductive JVal where
  | null
  | bool (b : Bool)
  | num (n : Int)
  | str (s : String)
  | arr (elems : List JVal)
  | obj (fields : List (String × JVal))

/-- Python `s == x` for a string `s` against a JSON value `x`: true exactly
when `x` is an equal string (no other JSON value compares equal to a
string in Python). Used by `in` over lists. -/
def strEqVal (s : String) : JVal → Bool
  | .str t => s == t
  | _ => false

/-- Python substring containment `needle in haystack` for strings. -/
def strContains (haystack needle : String) : Bool :=
  if needle = "" then true else (haystack.splitOn needle).length ≠ 1

/-- `UbusError` from `protocol.py` lines 10–25 (`from ubusmsg.h`).
Under the Python versions contemporary with this code, the name-mangled
class attribute `__UBUS_STATUS_LAST = 11` is an ordinary member with
value 11, so value lookup succeeds for 0..11 and raises `ValueError`
otherwise. -/
inductive UbusError where
  | UBUS_STATUS_OK
  | UBUS_STATUS_INVALID_COMMAND
  | UBUS_STATUS_INVALID_ARGUMENT
  | UBUS_STATUS_METHOD_NOT_FOUND
  | UBUS_STATUS_NOT_FOUND
  | UBUS_STATUS_NO_DATA
  | UBUS_STATUS_PERMISSION_DENIED
  | UBUS_STATUS_TIMEOUT
  | UBUS_STATUS_NOT_SUPPORTED
  | UBUS_STATUS_UNKNOWN_ERROR
  | UBUS_STATUS_CONNECTION_FAILED
  | UBUS_STATUS_LAST
deriving DecidableEq

/-- `UbusError(n)` by-value lookup on an integer: the members 0..11, and
`ValueError` (modelled by `none`) for any other integer. -/
def UbusError.ofInt? (n : Int) : Option UbusError :=
  if n = 0 then some .UBUS_STATUS_OK
  else if n = 1 then some .UBUS_STATUS_INVALID_COMMAND
  else if n = 2 then some .UBUS_STATUS_INVALID_ARGUMENT
  else if n = 3 then some .UBUS_STATUS_METHOD_NOT_FOUND
  else if n = 4 then some .UBUS_STATUS_NOT_FOUND
  else if n = 5 then some .UBUS_STATUS_NO_DATA
  else if n = 6 then some .UBUS_STATUS_PERMISSION_DENIED
  else if n = 7 then some .UBUS_STATUS_TIMEOUT
  else if n = 8 then some .UBUS_STATUS_NOT_SUPPORTED
  else if n = 9 then some .UBUS_STATUS_UNKNOWN_ERROR
  else if n = 10 then some .UBUS_STATUS_CONNECTION_FAILED
  else if n = 11 then some .UBUS_STATUS_LAST
  else none

/-- `UbusError(x)` on a decoded JSON value: Python looks members up by
equality, and `True == 1`, `False == 0`, so booleans resolve like 1/0;
every non-numeric value raises `ValueError` (`none`). -/
def UbusError.ofVal : JVal → Option UbusError
  | .num n => UbusError.ofInt? n
  | .bool b => UbusError.ofInt? (if b then 1 else 0)
  | _ => none

/-- The failures the embedded code can raise.  The `ubus*` constructors
are the `UbusException` raise sites of `protocol.py`, carrying the data
the corresponding format string interpolates; `valueError` is the
uncaught `ValueError` from an out-of-range `UbusError(...)` lookup;
`typeErrorNotIterable` is the uncaught `TypeError` from `x in v` when `v`
is not a container; `typeErrorBadIndex` is the uncaught `TypeError` from
`v[key]` with a string key when `v` is not a dict; `keyError` is a dict
lookup miss. -/
inductive PyError where
  | ubusErrorResponse (e : JVal)        -- "Got error from ubus: %s"
  | ubusNoResult (resp : JVal)          -- "Got no result: %s"
  | ubusBusStatus (e : UbusError)       -- "Got error %s"  (length-1 result)
  | ubusBadResultLength (r : List JVal) -- "Result length was not 2: %s"
  | ubusStatusNotOk (r : List JVal)     -- "Got an error: %s"
  | ubusNon200 (status : Nat)           -- "Got a non-200 retcode: %s"
  | ubusUnwantedParameter (nm : String) -- "Got unwanted parameter '%s'"
  | ubusTooManyParameters               -- "Got too many parameters ..."
  | ubusBadMethodListing (nm : String)  -- "Got incorrect method listing ..."
  | ubusLoginFailed (resp : JVal)       -- "Login failed, got no ubus_rpc_session ..."
  | valueError (v : JVal)               -- ValueError from UbusError(v)
  | typeErrorNotIterable                -- TypeError: argument of type ... is not iterable
  | typeErrorBadIndex                   -- TypeError: list/str indices must be integers
  | keyError (k : String)               -- KeyError

/-- Python `k in v` for a string `k`: key membership on a dict, element
membership on a list, substring test on a string, and `TypeError` on any
non-container (bool, number, null). -/
def pyContains (k : String) : JVal → Except PyError Bool
  | .obj fields => .ok (fields.any (fun p => p.1 == k))
  | .arr elems => .ok (elems.any (strEqVal k))
  | .str t => .ok (strContains t k)
  | _ => .error .typeErrorNotIterable

/-- Python `v[k]` for a string key `k`: dict lookup (with `KeyError` on a
miss), and `TypeError` on anything that is not a dict. -/
def pyIndexStr (v : JVal) (k : String) : Except PyError JVal :=
  match v with
  | .obj fields =>
    match fields.find? (fun p => p.1 == k) with
    | some p => .ok p.2
    | none => .error (.keyError k)
  | _ => .error .typeErrorBadIndex

/-- Lines 194–198 of `_do_request`, applied to the (possibly unwrapped)
payload: return a boolean as-is, otherwise unwrap a `results` key. -/
def afterUnwrap (payload : JVal) : Except PyError JVal :=
  match payload with
  | .bool b => .ok (.bool b)
  | p =>
    match pyContains "results" p with
    | .error e => .error e
    | .ok true => pyIndexStr p "results"
    | .ok false => .ok p

/-- Lines 191–198 of `_do_request`: `payload = result[1]`; unwrap a key
equal to the invoked method name, then the boolean / `results` steps. -/
def unwrapPayload (method : String) (payload : JVal) : Except PyError JVal :=
  match pyContains method payload with
  | .error e => .error e
  | .ok true =>
    match pyIndexStr payload method with
    | .error e => .error e
    | .ok p => afterUnwrap p
  | .ok false => afterUnwrap payload

/-- Lines 180–198 of `_do_request`: the `result`-is-a-list branch. -/
def decodeResultList (method : String) (xs : List JVal) : Except PyError JVal :=
  match xs with
  | [c] =>
    match UbusError.ofVal c with
    | none => .error (.valueError c)
    | some e => .error (.ubusBusStatus e)
  | [c, payload] =>
    match UbusError.ofVal c with
    | none => .error (.valueError c)
    | some e =>
      if e ≠ UbusError.UBUS_STATUS_OK then .error (.ubusStatusNotOk xs)
      else unwrapPayload method payload
  | _ => .error (.ubusBadResultLength xs)

/-- The response-decoding part of `Ubus._do_request` (lines 167–200),
given the HTTP status code and the parsed JSON body.  A body whose
`result` is neither a dict nor a list falls off the end of the `if`
chain, so the Python function implicitly returns `None` (`JVal.null`). -/
def do_request_decode (method : String) (statusCode : Nat) (response : JVal) :
    Except PyError JVal :=
  if statusCode = 200 then
    match pyContains "error" response with
    | .error e => .error e
    | .ok true =>
      match pyIndexStr response "error" with
      | .error e => .error e
      | .ok ev => .error (.ubusErrorResponse ev)
    | .ok false =>
      match pyContains "result" response with
      | .error e => .error e
      | .ok false => .error (.ubusNoResult response)
      | .ok true =>
        match pyIndexStr response "result" with
        | .error e => .error e
        | .ok result =>
          match result with
          | .obj fields => .ok (.obj fields)
          | .arr xs => decodeResultList method xs
          | _ => .ok .null
  else .error (.ubusNon200 statusCode)

/-- The mutable state of a `Ubus` client (lines 105–114).  `sessionId` is
kept as a `JVal` because `login` assigns whatever JSON value sits under
`ubus_rpc_session`; it starts as the all-zero placeholder string. -/
structure Ubus where
  endpoint : String
  username : Option String
  password : Option String
  timeout : Nat
  messageId : Nat
  sessionId : JVal

/-- `Ubus.__init__` (lines 106–114). -/
def Ubus.init (host : String) (username password : Option String) : Ubus :=
  { endpoint := "http://" ++ host ++ "/ubus"
    username := username
    password := password
    timeout := 5
    messageId := 0
    sessionId := .str "00000000000000000000000000000000" }

/-- The `id` property (lines 116–119): increment `_message_id`, return it. -/
def Ubus.nextId (u : Ubus) : Nat × Ubus :=
  (u.messageId + 1, { u with messageId := u.messageId + 1 })

/-- The request-envelope construction of `_do_request` (lines 151–157):
draw the next id and build the JSON-RPC body, embedding the current
session id as the first element of `params`. -/
def Ubus.requestData (u : Ubus) (rpcmethod subsystem method : String) (params : JVal) :
    JVal × Ubus :=
  let (i, u') := u.nextId
  (.obj [("jsonrpc", .str "2.0"),
         ("id", .num (i : Int)),
         ("method", .str rpcmethod),
         ("params", .arr [u'.sessionId, .str subsystem, .str method, params])],
   u')

/-- `Ubus.login` (lines 121–126), given the decoded result of the
`session.login` invocation: raising leaves the state untouched;
otherwise `_session_id` is assigned the value under `ubus_rpc_session`
and the result is returned. -/
def Ubus.login (u : Ubus) (result : JVal) : Except PyError JVal × Ubus :=
  match pyContains "ubus_rpc_session" result with
  | .error e => (.error e, u)
  | .ok false => (.error (.ubusLoginFailed result), u)
  | .ok true =>
    match pyIndexStr result "ubus_rpc_session" with
    | .error e => (.error e, u)
    | .ok sid => (.ok result, { u with sessionId := sid })

/-- The envelopes produced by a sequence of requests
(rpcmethod, subsystem, method, params), threading the client state. -/
def Ubus.requestSeq (u : Ubus) : List (String × String × String × JVal) → List JVal
  | [] => []
  | (r, s, m, p) :: rest =>
    let (env, u') := u.requestData r s m p
    env :: u'.requestSeq rest

/-- Projection: the `id` field of a request envelope. -/
def envelopeId (env : JVal) : Option JVal :=
  match env with
  | .obj fields => (fields.find? (fun p => p.1 == "id")).map (fun p => p.2)
  | _ => none

/-- Projection: the first element of the `params` field of a request
envelope (the embedded session id). -/
def envelopeParamsHead (env : JVal) : Option JVal :=
  match env with
  | .obj fields =>
    match fields.find? (fun p => p.1 == "params") with
    | some (_, .arr (x :: _)) => some x
    | _ => none
  | _ => none

/-- `Method._parse_parameters` (lines 38–41): the reserved
`ubus_rpc_session` key is deleted from the declared parameter dict. -/
def Method.parse_parameters (parameters : List (String × JVal)) : List (String × JVal) :=
  parameters.filter (fun p => p.1 ≠ "ubus_rpc_session")

/-- `Method.__call__` (lines 47–57), up to the delegation to
`namespace.call`: validate every supplied keyword against the declared
parameter names, filter the supplied arguments down to the declared
keys (in declared-key order, as the dict comprehension iterates
`self.parameters.keys()`), apply the redundant length check, and return
the argument dict that would be forwarded.  Positional arguments are
ignored by the source (`args` is rebound before use). -/
def Method.call (parameters : List String) (kwargs : List (String × JVal)) :
    Except PyError (List (String × JVal)) :=
  match kwargs.find? (fun p => !(parameters.contains p.1)) with
  | some p => .error (.ubusUnwantedParameter p.1)
  | none =>
    let args := parameters.filterMap (fun k =>
      match kwargs.find? (fun p => p.1 == k) with
      | some p => some (k, p.2)
      | none => none)
    if args.length > parameters.length then .error .ubusTooManyParameters
    else .ok args

/-- Python truthiness of an optional dict-valued cache field:
`None` and an empty dict are falsy, a non-empty dict is truthy. -/
def truthyCache {α : Type} (cache : Option (List α)) : Bool :=
  match cache with
  | none => false
  | some d => !d.isEmpty

/-- One access to `UbusNamespace.methods` (lines 74–79):
`if not self._methods: self._methods = self._fetch_methods()`.
`fetched` is the method dict a (successful, deterministic) fetch
returns; the result is the value served, the new cache field, and the
number of underlying `list` requests performed by this access. -/
def UbusNamespace.methods_access (cache : Option (List (String × JVal)))
    (fetched : List (String × JVal)) :
    List (String × JVal) × Option (List (String × JVal)) × Nat :=
  match cache with
  | some d => if d.isEmpty then (fetched, some fetched, 1) else (d, some d, 0)
  | none => (fetched, some fetched, 1)

/-- Total number of underlying `list` requests performed by `n`
successive accesses to `UbusNamespace.methods`. -/
def UbusNamespace.methods_access_count (cache : Option (List (String × JVal)))
    (fetched : List (String × JVal)) : Nat → Nat
  | 0 => 0
  | n + 1 =>
    let (_, c, k) := UbusNamespace.methods_access cache fetched
    k + UbusNamespace.methods_access_count c fetched n

/-- One access to `Ubus.namespaces` (lines 202–206):
`if not self._ifaces: self._ifaces = self._fetch_ifaces()`.  The cache
holds the interface dict keyed by namespace name; only the keys matter
here, so entries are names. -/
def Ubus.namespaces_access (cache : Option (List String)) (fetched : List String) :
    List String × Option (List String) × Nat :=
  match cache with
  | some d => if d.isEmpty then (fetched, some fetched, 1) else (d, some d, 0)
  | none => (fetched, some fetched, 1)

/-- Total number of underlying `list` requests performed by `n`
successive accesses to `Ubus.namespaces`. -/
def Ubus.namespaces_access_count (cache : Option (List String))
    (fetched : List String) : Nat → Nat
  | 0 => 0
  | n + 1 =>
    let (_, c, k) := Ubus.namespaces_access cache fetched
    k + Ubus.namespaces_access_count c fetched n

/-- `isinstance(result, dict)`: is the value a JSON object. -/
def JVal.isDict : JVal → Bool
  | .obj _ => true
  | _ => false

/-- `isinstance(result, list)`: is the value a JSON array. -/
def JVal.isList : JVal → Bool
  | .arr _ => true
  | _ => false

/-! ## Theorems -/

lemma UbusError.ofInt?_eq_none_of_ge12 (c : Int) (h : 12 ≤ c) :
    UbusError.ofInt? c = none := by
  have g0 : c ≠ 0 := by omega
  have g1 : c ≠ 1 := by omega
  have g2 : c ≠ 2 := by omega
  have g3 : c ≠ 3 := by omega
  have g4 : c ≠ 4 := by omega
  have g5 : c ≠ 5 := by omega
  have g6 : c ≠ 6 := by omega
  have g7 : c ≠ 7 := by omega
  have g8 : c ≠ 8 := by omega
  have g9 : c ≠ 9 := by omega
  have gA : c ≠ 10 := by omega
  have gB : c ≠ 11 := by omega
  simp [UbusError.ofInt?, g0, g1, g2, g3, g4, g5, g6, g7, g8, g9, gA, gB]

/-- C1 (counterexample): decoding the out-of-range bus status code 99 does
crash — the enum lookup `UbusError(99)` raises an uncaught `ValueError`,
which is an internal error and in particular not the bus-status
`UbusException` the claim requires. -/
theorem claim_C1_counterexample :
    do_request_decode "m" 200 (.obj [("result", .arr [.num 99])])
        = .error (.valueError (.num 99)) ∧
      (PyError.valueError (.num 99)) ≠ .ubusBusStatus .UBUS_STATUS_LAST :=
  ⟨rfl, by simp⟩

/-- C1 (amended): only the exact code 11 resolves to the sentinel member
(`__UBUS_STATUS_LAST`, an ordinary member under the Python versions this
code targets) and is reported as a bus-status error; every status code
`c ≥ 12` (such as 99) instead raises an uncaught `ValueError` from the
enum lookup, so decoding an out-of-range code does crash with an
internal error. -/
theorem claim_C1_amended (m : String) (c : Int) (h : 12 ≤ c) :
    do_request_decode m 200 (.obj [("result", .arr [.num c])])
        = .error (.valueError (.num c)) ∧
      do_request_decode m 200 (.obj [("result", .arr [.num 11])])
        = .error (.ubusBusStatus .UBUS_STATUS_LAST) := by
  constructor
  · show decodeResultList m [.num c] = .error (.valueError (.num c))
    unfold decodeResultList
    simp [UbusError.ofVal, UbusError.ofInt?_eq_none_of_ge12 c h]
  · rfl

/-- C1 (witness): the amended statement evaluated at code 99. -/
theorem claim_C1_witness :
    (12 : Int) ≤ 99 ∧
      (do_request_decode "status" 200 (.obj [("result", .arr [.num 99])])
          = .error (.valueError (.num 99)) ∧
        do_request_decode "status" 200 (.obj [("result", .arr [.num 11])])
          = .error (.ubusBusStatus .UBUS_STATUS_LAST)) :=
  ⟨by norm_num, claim_C1_amended "status" 99 (by norm_num)⟩

/-- C2 (counterexample): a single-element `result` whose element is the
out-of-range code 12 does not fail with the bus-status `UbusException` —
the enum lookup raises an uncaught `ValueError` first. -/
theorem claim_C2_counterexample :
    do_request_decode "call" 200 (.obj [("result", .arr [.num 12])])
        = .error (.valueError (.num 12)) ∧
      (PyError.valueError (.num 12)) ≠ .ubusBusStatus .UBUS_STATUS_LAST :=
  ⟨rfl, by simp⟩

/-- C2 (amended): a single-element `result` never yields a payload — it
always fails — and whenever the sole element is a valid status code
(0..11, including the success code 0/OK) the failure is the bus-status
`UbusException` mapped from that element; out-of-range elements fail
with an uncaught `ValueError` instead. -/
theorem claim_C2_amended (m : String) (c : Int) (e : UbusError)
    (h : UbusError.ofInt? c = some e) :
    do_request_decode m 200 (.obj [("result", .arr [.num c])])
        = .error (.ubusBusStatus e) ∧
      ∀ c2 : Int, ∃ er : PyError,
        do_request_decode m 200 (.obj [("result", .arr [.num c2])]) = .error er := by
  constructor
  · show decodeResultList m [.num c] = .error (.ubusBusStatus e)
    unfold decodeResultList
    simp [UbusError.ofVal, h]
  · intro c2
    show ∃ er : PyError, decodeResultList m [.num c2] = .error er
    unfold decodeResultList
    cases h2 : UbusError.ofVal (.num c2) with
    | none => exact ⟨.valueError (.num c2), by simp [h2]⟩
    | some e2 => exact ⟨.ubusBusStatus e2, by simp [h2]⟩

/-- C2 (witness): the amended statement evaluated at the success code 0. -/
theorem claim_C2_witness :
    UbusError.ofInt? 0 = some .UBUS_STATUS_OK ∧
      (do_request_decode "call" 200 (.obj [("result", .arr [.num 0])])
          = .error (.ubusBusStatus .UBUS_STATUS_OK) ∧
        ∀ c2 : Int, ∃ er : PyError,
          do_request_decode "call" 200 (.obj [("result", .arr [.num c2])]) = .error er) :=
  ⟨rfl, claim_C2_amended "call" 0 .UBUS_STATUS_OK rfl⟩

/-- C3 (counterexample): decoding `result=[0, true]` does not return the
boolean — `method in payload` runs before the boolean check and raises
an uncaught `TypeError` because a bool is not iterable. -/
theorem claim_C3_counterexample :
    do_request_decode "access" 200 (.obj [("result", .arr [.num 0, .bool true])])
        = .error .typeErrorNotIterable ∧
      do_request_decode "access" 200 (.obj [("result", .arr [.num 0, .bool true])])
        ≠ .ok (.bool true) :=
  ⟨rfl, by
    simp [show do_request_decode "access" 200 (.obj [("result", .arr [.num 0, .bool true])])
        = .error .typeErrorNotIterable from rfl]⟩

/-- C3 (amended): a bare boolean payload `result=[0, b]` raises an
uncaught `TypeError` from the membership test on the boolean; a boolean
is returned as-is only when it arises from unwrapping, i.e.
`result=[0, {m: b}]` invoked as `m` yields `b`. -/
theorem claim_C3_amended (m : String) (b : Bool) :
    do_request_decode m 200 (.obj [("result", .arr [.num 0, .bool b])])
        = .error .typeErrorNotIterable ∧
      do_request_decode m 200 (.obj [("result", .arr [.num 0, .obj [(m, .bool b)]])])
        = .ok (.bool b) := by
  constructor
  · rfl
  · show unwrapPayload m (.obj [(m, .bool b)]) = .ok (.bool b)
    unfold unwrapPayload
    simp [pyContains, pyIndexStr, afterUnwrap]

/-- C9: an HTTP-200 body with no `error` key whose `result` is neither a
dict nor a list falls off the end of the `if` chain, so `_do_request`
raises nothing and implicitly returns `None`. -/
theorem claim_C9_theorem (m : String) (v : JVal)
    (h1 : v.isDict = false) (h2 : v.isList = false) :
    do_request_decode m 200 (.obj [("result", v)]) = .ok .null := by
  cases v with
  | obj fields => simp [JVal.isDict] at h1
  | arr elems => simp [JVal.isList] at h2
  | null => rfl
  | bool b => rfl
  | num n => rfl
  | str s => rfl

/-- C9 (witness): a string-valued `result` decodes to `None`. -/
theorem claim_C9_witness :
    JVal.isDict (.str "hello") = false ∧ JVal.isList (.str "hello") = false ∧
      do_request_decode "m" 200 (.obj [("result", .str "hello")]) = .ok .null :=
  ⟨rfl, rfl, claim_C9_theorem "m" (.str "hello") rfl rfl⟩

/-- C10: for `result=[0, P]` with `P` a list, the unwrap step tests
membership directly on `P`; if `P` contains the invoked method name or
the string "results" as an element, decoding raises the uncaught
`TypeError` from indexing the list with a string key. -/
theorem claim_C10_theorem (m : String) (P : List JVal)
    (h : P.any (strEqVal m) = true ∨ P.any (strEqVal "results") = true) :
    do_request_decode m 200 (.obj [("result", .arr [.num 0, .arr P])])
        = .error .typeErrorBadIndex := by
  show unwrapPayload m (.arr P) = .error .typeErrorBadIndex
  unfold unwrapPayload
  cases hm : P.any (strEqVal m) with
  | true => simp [pyContains, hm, pyIndexStr]
  | false =>
    have hr : P.any (strEqVal "results") = true := by
      rcases h with h | h

      · rw [hm] at h; cases h
      · exact h
    simp [pyContains, hm, afterUnwrap, hr, pyIndexStr]

/-- C10 (witness): the crash evaluated at `P = ["do"]`, method `"do"`. -/
theorem claim_C10_witness :
    ([JVal.str "do"].any (strEqVal "do") = true ∨
        [JVal.str "do"].any (strEqVal "results") = true) ∧
      do_request_decode "do" 200 (.obj [("result", .arr [.num 0, .arr [.str "do"]])])
        = .error .typeErrorBadIndex :=
  ⟨Or.inl rfl, claim_C10_theorem "do" [.str "do"] (Or.inl rfl)⟩

/-- C4 (counterexample): for `result=[0, {"uci": 5}]` invoked as `"uci"`,
decoding does not yield the nested value 5 — after the unwrap the code
evaluates `'results' in 5`, which raises an uncaught `TypeError`. -/
theorem claim_C4_counterexample :
    do_request_decode "uci" 200 (.obj [("result", .arr [.num 0, .obj [("uci", .num 5)]])])
        = .error .typeErrorNotIterable ∧
      do_request_decode "uci" 200 (.obj [("result", .arr [.num 0, .obj [("uci", .num 5)]])])
        ≠ .ok (.num 5) :=
  ⟨rfl, by
    simp [show do_request_decode "uci" 200
          (.obj [("result", .arr [.num 0, .obj [("uci", .num 5)]])])
        = .error .typeErrorNotIterable from rfl]⟩

/-- C4 (amended): restricted to object-valued nested payloads the claim
holds.  For `result=[0, {m: Y}]` with `Y` an object: invoked as `m`,
decoding yields `Y` when `Y` has no `results` key and `Y`'s `results`
value when it does; invoked as a different method name `m2` (provided
`m` itself is not the literal key `"results"`) the payload is returned
unchanged; and `result=[0, {"results": X}]` invoked as `"list"` yields
`X` for every `X`.  (For a non-object, non-boolean nested value the
subsequent `'results' in payload` test can raise, as the
counterexample shows.) -/
theorem claim_C4_amended (m m2 : String) (Y1 rest : List (String × JVal)) (X Y : JVal)
    (hm2 : m2 ≠ m) (hmr : m ≠ "results")
    (h1 : Y1.any (fun p => p.1 == "results") = false) :
    do_request_decode m 200 (.obj [("result", .arr [.num 0, .obj [(m, .obj Y1)]])])
        = .ok (.obj Y1) ∧
      do_request_decode m 200
          (.obj [("result", .arr [.num 0, .obj [(m, .obj (("results", X) :: rest))]])])
        = .ok X ∧
      do_request_decode m2 200 (.obj [("result", .arr [.num 0, .obj [(m, Y)]])])
        = .ok (.obj [(m, Y)]) ∧
      do_request_decode "list" 200 (.obj [("result", .arr [.num 0, .obj [("results", X)]])])
        = .ok X := by
  refine ⟨?_, ?_, ?_, ?_⟩
  · show unwrapPayload m (.obj [(m, .obj Y1)]) = .ok (.obj Y1)
    unfold unwrapPayload
    simp [pyContains, pyIndexStr, afterUnwrap, h1]
  · show unwrapPayload m (.obj [(m, .obj (("results", X) :: rest))]) = .ok X
    unfold unwrapPayload
    simp [pyContains, pyIndexStr, afterUnwrap]
  · show unwrapPayload m2 (.obj [(m, Y)]) = .ok (.obj [(m, Y)])
    have h2 : (m == m2) = false := beq_eq_false_iff_ne.mpr (Ne.symm hm2)
    have h3 : (m == "results") = false := beq_eq_false_iff_ne.mpr hmr
    unfold unwrapPayload
    simp [pyContains, pyIndexStr, afterUnwrap, h2, h3]
  · rfl

/-- C4 (witness): the amended statement evaluated at method `"get"`,
other method `"other"`, nested object `{"a": null}`, `X = 7`,
unchanged-payload value 3. -/
theorem claim_C4_witness :
    ("other" ≠ "get" ∧ "get" ≠ "results" ∧
        [("a", JVal.null)].any (fun p => p.1 == "results") = false) ∧
      (do_request_decode "get" 200
            (.obj [("result", .arr [.num 0, .obj [("get", .obj [("a", .null)])]])])
          = .ok (.obj [("a", .null)]) ∧
        do_request_decode "get" 200
            (.obj [("result", .arr [.num 0, .obj [("get", .obj [("results", .num 7)])]])])
          = .ok (.num 7) ∧
        do_request_decode "other" 200
            (.obj [("result", .arr [.num 0, .obj [("get", .num 3)]])])
          = .ok (.obj [("get", .num 3)]) ∧
        do_request_decode "list" 200
            (.obj [("result", .arr [.num 0, .obj [("results", .num 7)]])])
          = .ok (.num 7)) :=
  ⟨⟨by decide, by decide, rfl⟩,
    claim_C4_amended "get" "other" [("a", .null)] [] (.num 7) (.num 3)
      (by decide) (by decide) rfl⟩

lemma requestSeq_ids (u : Ubus) (calls : List (String × String × String × JVal)) :
    (u.requestSeq calls).map envelopeId
      = (List.range' (u.messageId + 1) calls.length).map
          (fun n => some (.num (n : Int))) := by
  induction calls generalizing u with
  | nil => rfl
  | cons c rest ih =>
    obtain ⟨r, s, m, p⟩ := c
    simp only [Ubus.requestSeq, Ubus.requestData, Ubus.nextId, List.map_cons,
      List.length_cons, List.range'_succ]
    refine congrArg₂ List.cons rfl ?_
    exact ih { u with messageId := u.messageId + 1 }

/-- C5: for a fresh client, the `id` field embedded in the n-th request
envelope is exactly n — the ids of any request sequence are
1, 2, 3, ..., strictly increasing by 1 from 1. -/
theorem claim_C5_theorem (host : String) (user pass : Option String)
    (calls : List (String × String × String × JVal)) :
    ((Ubus.init host user pass).requestSeq calls).map envelopeId
      = (List.range' 1 calls.length).map (fun n => some (.num (n : Int))) :=
  requestSeq_ids (Ubus.init host user pass) calls

lemma methods_access_count_truthy (fetched d : List (String × JVal)) (hd : d ≠ []) :
    ∀ n, UbusNamespace.methods_access_count (some d) fetched n = 0 := by
  intro n
  induction n with
  | zero => rfl
  | succ k ih =>
    cases d with
    | nil => exact absurd rfl hd
    | cons a t =>
      simpa [UbusNamespace.methods_access_count, UbusNamespace.methods_access] using ih

lemma namespaces_access_count_truthy (fetched d : List String) (hd : d ≠ []) :
    ∀ n, Ubus.namespaces_access_count (some d) fetched n = 0 := by
  intro n
  induction n with
  | zero => rfl
  | succ k ih =>
    cases d with
    | nil => exact absurd rfl hd
    | cons a t =>
      simpa [Ubus.namespaces_access_count, Ubus.namespaces_access] using ih

/-- C6 (counterexample): the caches are guarded by Python truthiness
(`if not self._methods:`), so an empty discovery result is never
treated as populated — two successive accesses to a namespace with an
empty method dict perform two underlying `list` requests, not at most
one. -/
theorem claim_C6_counterexample :
    UbusNamespace.methods_access_count none [] 2 = 2 ∧
      ¬ UbusNamespace.methods_access_count none [] 2 ≤ 1 :=
  ⟨rfl, by decide⟩

/-- C6 (amended): provided the discovery result is non-empty, the
namespace cache and the method cache are each populated at most once —
any number of repeated accesses starting from the unpopulated cache
performs at most one underlying request; an empty discovery result is
falsy and is re-fetched on every access. -/
theorem claim_C6_amended (fetchedM : List (String × JVal)) (fetchedNs : List String)
    (n k : Nat) (hM : fetchedM ≠ []) (hNs : fetchedNs ≠ []) :
    UbusNamespace.methods_access_count none fetchedM n ≤ 1 ∧
      Ubus.namespaces_access_count none fetchedNs k ≤ 1 := by
  constructor
  · cases n with
    | zero => exact Nat.zero_le 1
    | succ j =>
      have h0 := methods_access_count_truthy fetchedM fetchedM hM j
      simp [UbusNamespace.methods_access_count, UbusNamespace.methods_access, h0]
  · cases k with
    | zero => exact Nat.zero_le 1
    | succ j =>
      have h0 := namespaces_access_count_truthy fetchedNs fetchedNs hNs j
      simp [Ubus.namespaces_access_count, Ubus.namespaces_access, h0]

/-- C6 (witness): the amended statement evaluated at a one-method dict
and a one-namespace listing, five accesses each. -/
theorem claim_C6_witness :
    ([("lookup", JVal.null)] ≠ ([] : List (String × JVal)) ∧
        ["session"] ≠ ([] : List String)) ∧
      (UbusNamespace.methods_access_count none [("lookup", JVal.null)] 5 ≤ 1 ∧
        Ubus.namespaces_access_count none ["session"] 5 ≤ 1) :=
  ⟨⟨List.cons_ne_nil _ _, List.cons_ne_nil _ _⟩,
    claim_C6_amended [("lookup", JVal.null)] ["session"] 5 5
      (List.cons_ne_nil _ _) (List.cons_ne_nil _ _)⟩

lemma keyNodup_val_eq {l : List (String × JVal)} (hnd : (l.map Prod.fst).Nodup)
    {k : String} {v w : JVal} (hv : (k, v) ∈ l) (hw : (k, w) ∈ l) : v = w := by
  induction l with
  | nil => cases hv
  | cons a t ih =>
    rw [List.map_cons, List.nodup_cons] at hnd
    rcases List.mem_cons.mp hv with hv1 | hv1 <;> rcases List.mem_cons.mp hw with hw1 | hw1
    · rw [← hv1] at hw1
      exact (congrArg Prod.snd hw1).symm
    · exact absurd (List.mem_map_of_mem Prod.fst hw1)
        (by rw [← hv1] at hnd; exact hnd.1)
    · exact absurd (List.mem_map_of_mem Prod.fst hv1)
        (by rw [← hw1] at hnd; exact hnd.1)
    · exact ih hnd.2 hv1 hw1

/-- C7: invoking a method with a keyword whose name is not among the
declared parameter names fails with the unwanted-parameter
`UbusException`; invoking it with a subset of the declared names (the
keyword dict has no duplicate keys) succeeds and forwards exactly the
supplied name/value pairs, and no others, to the owning namespace's
call. -/
theorem claim_C7_theorem (parameters : List String)
    (kwargs kwbad : List (String × JVal)) (bad : String × JVal)
    (hk : (kwargs.map Prod.fst).Nodup)
    (hsub : ∀ p ∈ kwargs, p.1 ∈ parameters)
    (hbadmem : bad ∈ kwbad) (hbadname : bad.1 ∉ parameters) :
    (∃ l, Method.call parameters kwargs = .ok l ∧
        ∀ kv : String × JVal, kv ∈ l ↔ kv ∈ kwargs) ∧
      ∃ nm : String, nm ∉ parameters ∧
        Method.call parameters kwbad = .error (.ubusUnwantedParameter nm) := by
  constructor
  · have hfind : kwargs.find? (fun p => !(parameters.contains p.1)) = none :=
      List.find?_eq_none.mpr (fun p hp => by simp [hsub p hp])
    unfold Method.call
    rw [hfind]
    have hlen : (parameters.filterMap (fun k =>
        match kwargs.find? (fun p => p.1 == k) with
        | some p => some (k, p.2)
        | none => none)).length ≤ parameters.length :=
      List.length_filterMap_le _ _
    rw [if_neg (by omega)]
    refine ⟨_, rfl, fun kv => ?_⟩
    constructor
    · intro hmem
      rcases List.mem_filterMap.mp hmem with ⟨a, ha, hfa⟩
      rcases hq : kwargs.find? (fun p => p.1 == a) with _ | q
      · rw [hq] at hfa; cases hfa
      · rw [hq] at hfa
        have hq1 : q.1 = a := by
          have := List.find?_some hq
          simpa using this
        have hqm : q ∈ kwargs := List.mem_of_find?_eq_some hq
        have : kv = q := by
          cases hfa
          rw [← hq1]
        rw [this]
        exact hqm
    · intro hmem
      obtain ⟨kk, vv⟩ := kv
      have hpar : kk ∈ parameters := hsub (kk, vv) hmem
      have hex : (kwargs.find? (fun p => p.1 == kk)).isSome :=
        List.find?_isSome.mpr ⟨(kk, vv), hmem, by simp⟩
      rcases Option.isSome_iff_exists.mp hex with ⟨q, hq⟩
      obtain ⟨qk, qv⟩ := q
      have hq1 : qk = kk := by
        have := List.find?_some hq
        simpa using this
      subst hq1
      have hqm : (qk, qv) ∈ kwargs := List.mem_of_find?_eq_some hq
      have hv : qv = vv := keyNodup_val_eq hk hqm hmem
      refine List.mem_filterMap.mpr ⟨qk, hpar, ?_⟩
      simp [hq, hv]
  · have hex : (kwbad.find? (fun p => !(parameters.contains p.1))).isSome :=
      List.find?_isSome.mpr ⟨bad, hbadmem, by simp [hbadname]⟩
    rcases Option.isSome_iff_exists.mp hex with ⟨q, hq⟩
    have hq1 : q.1 ∉ parameters := by
      have := List.find?_some hq
      simpa using this
    refine ⟨q.1, hq1, ?_⟩
    unfold Method.call
    rw [hq]

/-- C7 (witness): declared names `["user", "pass"]`, a valid call
supplying only `user`, and a rejected call supplying `zz`. -/
theorem claim_C7_witness :
    ((([("user", JVal.str "u")] : List (String × JVal)).map Prod.fst).Nodup ∧
        (∀ p ∈ ([("user", JVal.str "u")] : List (String × JVal)),
          p.1 ∈ ["user", "pass"]) ∧
        ("zz", JVal.null) ∈ ([("zz", JVal.null)] : List (String × JVal)) ∧
        "zz" ∉ ["user", "pass"]) ∧
      ((∃ l, Method.call ["user", "pass"] [("user", .str "u")] = .ok l ∧
          ∀ kv : String × JVal, kv ∈ l ↔ kv ∈ [("user", JVal.str "u")]) ∧
        ∃ nm : String, nm ∉ ["user", "pass"] ∧
          Method.call ["user", "pass"] [("zz", .null)]
            = .error (.ubusUnwantedParameter nm)) :=
  ⟨⟨by simp, by simp, by simp, by simp⟩,
    claim_C7_theorem ["user", "pass"] [("user", .str "u")] [("zz", .null)]
      ("zz", .null) (by simp) (by simp) (by simp) (by simp)⟩

/-- C8: `login` on a response object lacking `ubus_rpc_session` raises
the login-failed `UbusException` and leaves the whole client state —
in particular `sessionId` — unchanged; on a response carrying the key,
`sessionId` becomes exactly that value; and every request envelope
embeds the current `sessionId` as the first element of `params` while
never mutating it. -/
theorem claim_C8_theorem (u : Ubus) (fs gs : List (String × JVal)) (v : JVal)
    (hno : fs.any (fun p => p.1 == "ubus_rpc_session") = false)
    (hyes : gs.find? (fun p => p.1 == "ubus_rpc_session")
      = some ("ubus_rpc_session", v)) :
    u.login (.obj fs) = (.error (.ubusLoginFailed (.obj fs)), u) ∧
      ((u.login (.obj gs)).1 = .ok (.obj gs) ∧
        (u.login (.obj gs)).2.sessionId = v) ∧
      ∀ (u2 : Ubus) (r s m : String) (p : JVal),
        envelopeParamsHead (u2.requestData r s m p).1 = some u2.sessionId ∧
          (u2.requestData r s m p).2.sessionId = u2.sessionId := by
  refine ⟨?_, ?_, ?_⟩
  · unfold Ubus.login
    simp [pyContains, hno]
  · have hany : gs.any (fun p => p.1 == "ubus_rpc_session") = true :=
      List.any_eq_true.mpr
        ⟨("ubus_rpc_session", v), List.mem_of_find?_eq_some hyes, by simp⟩
    unfold Ubus.login
    simp [pyContains, hany, pyIndexStr, hyes]
  · intro u2 r s m p
    exact ⟨rfl, rfl⟩

/-- C8 (witness): the statement evaluated on a fresh client, a response
without the key, and a response carrying session id
`"7099de950604de9f358d16fc8e8e4950"`. -/
theorem claim_C8_witness :
    (([("expires", JVal.num 300)] : List (String × JVal)).any
          (fun p => p.1 == "ubus_rpc_session") = false ∧
        ([("ubus_rpc_session", JVal.str "7099de950604de9f358d16fc8e8e4950")] :
            List (String × JVal)).find? (fun p => p.1 == "ubus_rpc_session")
          = some ("ubus_rpc_session", .str "7099de950604de9f358d16fc8e8e4950")) ∧
      ((Ubus.init "192.168.1.1" none none).login (.obj [("expires", .num 300)])
          = (.error (.ubusLoginFailed (.obj [("expires", .num 300)])),
             Ubus.init "192.168.1.1" none none) ∧
        (((Ubus.init "192.168.1.1" none none).login
            (.obj [("ubus_rpc_session", .str "7099de950604de9f358d16fc8e8e4950")])).1
          = .ok (.obj [("ubus_rpc_session", .str "7099de950604de9f358d16fc8e8e4950")]) ∧
          ((Ubus.init "192.168.1.1" none none).login
            (.obj [("ubus_rpc_session", .str "7099de950604de9f358d16fc8e8e4950")])).2.sessionId
          = .str "7099de950604de9f358d16fc8e8e4950") ∧
        ∀ (u2 : Ubus) (r s m : String) (p : JVal),
          envelopeParamsHead (u2.requestData r s m p).1 = some u2.sessionId ∧
            (u2.requestData r s m p).2.sessionId = u2.sessionId) :=
  ⟨⟨rfl, rfl⟩,
    claim_C8_theorem (Ubus.init "192.168.1.1" none none)
      [("expires", .num 300)]
      [("ubus_rpc_session", .str "7099de950604de9f358d16fc8e8e4950")]
      (.str "7099de950604de9f358d16fc8e8e4950") rfl rfl⟩

end UbusProto
